import Mathlib

/-!
Verification of the Anvil API client (node-anvil).

The definitions below are a shallow embedding of `src/index.js` (the
client class `Anvil`): JavaScript numbers that matter here are modelled
as rationals (`ℚ`), JS strings as `String`, JSON-like values as the
inductive `JVal`, optional / possibly-`undefined` values as `Option`,
and code that throws as `Except String`.
-/

namespace Anvil

/-- `failBufferMS` constant from the source (`const failBufferMS = 50`). -/
def failBufferMS : Int := 50

/-- JS truthiness of a possibly-undefined string: `undefined` and `""` are
falsy, every other string is truthy. -/
def truthyS : Option String → Bool
  | none => false
  | some s => s ≠ ""

/-- Decimal digit test used by the `parseFloat` model. -/
def isDigitCh (c : Char) : Bool := '0' ≤ c && c ≤ '9'

/-- Numeric value of a list of decimal digit characters (most significant
first), e.g. `['1','2'] ↦ 12`. -/
def natOfDigits (ds : List Char) : Nat :=
  ds.foldl (fun acc c => acc * 10 + (c.toNat - 48)) 0

/-- The syntactic shape of a decimal floating-point literal recognised by
`parseFloat`: sign, integer-part value, fractional-part value with its
digit count, and the exponent. -/
structure FloatLit where
  neg : Bool
  intPart : Nat
  fracNum : Nat
  fracLen : Nat
  exp : Int
deriving DecidableEq

/-- Character-level part of the JavaScript `parseFloat` model: skip leading
whitespace, read an optional sign, decimal digits, an optional fractional
digit run and an optional integer exponent (`1e2`, `1.5e-1`); an exponent
marker not followed by digits is ignored, exactly as `parseFloat` does.
`none` models `NaN` (no numeric prefix at all). -/
def parseFloatLit (s : String) : Option FloatLit :=
  let cs := s.data.dropWhile (fun c => c = ' ' || c = '\t' || c = '\n' || c = '\r')
  let (neg, cs) : Bool × List Char :=
    match cs with
    | '-' :: r => (true, r)
    | '+' :: r => (false, r)
    | _ => (false, cs)
  let ds := cs.takeWhile isDigitCh
  let cs := cs.dropWhile isDigitCh
  let (fs, cs) : List Char × List Char :=
    match cs with
    | '.' :: r => (r.takeWhile isDigitCh, r.dropWhile isDigitCh)
    | _ => ([], cs)
  if ds = [] && fs = [] then none
  else
    let exp : Int :=
      match cs with
      | 'e' :: r | 'E' :: r =>
        let (es, r') : Int × List Char :=
          match r with
          | '-' :: r2 => (-1, r2)
          | '+' :: r2 => (1, r2)
          | _ => (1, r)
        let eds := r'.takeWhile isDigitCh
        if eds = [] then 0 else es * (natOfDigits eds : Int)
      | _ => 0
    some ⟨neg, natOfDigits ds, natOfDigits fs, fs.length, exp⟩

/-- Numeric value of a recognised floating-point literal, as a rational. -/
def floatLitVal (l : FloatLit) : ℚ :=
  let mag : ℚ := (l.intPart : ℚ) + (l.fracNum : ℚ) / (10 : ℚ) ^ l.fracLen
  let signed : ℚ := if l.neg then -mag else mag
  if 0 ≤ l.exp then signed * (10 : ℚ) ^ l.exp.toNat
  else signed / (10 : ℚ) ^ (-l.exp).toNat

/-- Model of JavaScript `parseFloat` on the fragment relevant to
`retry-after` headers (decimal literals with optional sign, fraction and
exponent). `none` models `NaN`. -/
def parseFloatQ (s : String) : Option ℚ :=
  (parseFloatLit s).map floatLitVal

/-- JavaScript `Math.round` on a (non-`NaN`) number: round half toward
positive infinity. -/
def jsRound (q : ℚ) : Int := ⌊q + 1 / 2⌋

/-- JS `v || 0` on a possibly-`NaN` number: `NaN` (here `none`) and `±0`
are falsy and give `0`; any other number is returned unchanged. -/
def jsOrZeroQ : Option ℚ → ℚ
  | none => 0
  | some q => if q = 0 then 0 else q

/-- `getRetryMS` from the source:
`Math.round((Math.abs(parseFloat(retryAfterSeconds)) || 0) * 1000) + failBufferMS`.
The argument is `response.headers.get('retry-after')`, which is `null`
(here `none`) when the header is absent; `parseFloat` then yields `NaN`. -/
def getRetryMS (retryAfterSeconds : Option String) : Int :=
  jsRound (jsOrZeroQ ((retryAfterSeconds.bind parseFloatQ).map (fun q => |q|)) * 1000)
    + failBufferMS

/-- The delay formula exactly as the spec states it:
`round(abs(parseFloat(retryAfter) || 0) * 1000) + 50`. -/
def getRetryMSSpec (retryAfter : Option String) : Int :=
  jsRound (|jsOrZeroQ (retryAfter.bind parseFloatQ)| * 1000) + 50

/-- JSON-like JavaScript values, extended with the upload-capable leaves
that can appear inside GraphQL `variables`: stream-like objects, `Buffer`s,
`UploadWithOptions` wrappers and complete `Base64Upload` descriptors.  The
`id` on each upload leaf stands for JavaScript object identity (the same
object referenced twice is embedded with the same `id`). -/
inductive JVal where
  | jnull
  | jbool (b : Bool)
  | jnum (n : Int)
  | jstr (s : String)
  | jarr (elems : List JVal)
  | jobj (fields : List (String × JVal))
  | jstream (id : Nat)
  | jbuffer (id : Nat)
  | jupload (id : Nat)
  | jb64 (id : Nat) (data filename mimetype : String)

/-- JS truthiness of a `JVal`: `null`, `false`, `0` and `""` are falsy;
arrays, objects and upload values are truthy. -/
def JVal.truthy : JVal → Bool
  | .jnull => false
  | .jbool b => b
  | .jnum n => n ≠ 0
  | .jstr s => s ≠ ""
  | _ => true

/-- Property access `obj[key]` on a `JVal`: `none` models `undefined`
(also for non-objects, whose properties are not modelled). -/
def JVal.get : JVal → String → Option JVal
  | .jobj fields, key => (fields.find? (fun f => f.1 = key)).map (·.2)
  | _, _ => none

/-- JS truthiness of a possibly-`undefined` value. -/
def truthyO : Option JVal → Bool
  | none => false
  | some v => v.truthy

/-- JS `a || b` on possibly-`undefined` values. -/
def jsOr (a b : Option JVal) : Option JVal := if truthyO a then a else b

/-- JS `a && b` on possibly-`undefined` values. -/
def jsAnd (a b : Option JVal) : Option JVal := if truthyO a then b else a

/-- `JSON.stringify` escaping of one string character. -/
def escChar (c : Char) : String :=
  if c = '"' then "\\\""
  else if c = '\\' then "\\\\"
  else if c = '\n' then "\\n"
  else if c = '\r' then "\\r"
  else if c = '\t' then "\\t"
  else if c.toNat < 32 then
    "\\u00" ++ String.mk [Nat.digitChar (c.toNat / 16), Nat.digitChar (c.toNat % 16)]
  else String.mk [c]

/-- `JSON.stringify` rendering of a JS string, quotes included. -/
def jsonQuote (s : String) : String :=
  "\"" ++ String.join (s.data.map escChar) ++ "\""

mutual

/-- Model of `JSON.stringify` on `JVal`.  Upload leaves never reach
`JSON.stringify` in the code paths modelled here (they are extracted and
replaced by `null` first); streams/buffers/wrappers are rendered as an
empty object, and a base64 descriptor as the plain object it is in JS. -/
def JVal.stringify : JVal → String
  | .jnull => "null"
  | .jbool true => "true"
  | .jbool false => "false"
  | .jnum n => toString n
  | .jstr s => jsonQuote s
  | .jarr elems => "[" ++ stringifyElems elems ++ "]"
  | .jobj fields => "\x7b" ++ stringifyFields fields ++ "\x7d"
  | .jstream _ => "\x7b\x7d"
  | .jbuffer _ => "\x7b\x7d"
  | .jupload _ => "\x7b\x7d"
  | .jb64 _ d f m =>
    "\x7b\"data\":" ++ jsonQuote d ++ ",\"filename\":" ++ jsonQuote f ++
      ",\"mimetype\":" ++ jsonQuote m ++ "\x7d"

/-- Comma-separated rendering of array elements. -/
def stringifyElems : List JVal → String
  | [] => ""
  | [v] => v.stringify
  | v :: rest => v.stringify ++ "," ++ stringifyElems rest

/-- Comma-separated rendering of object fields, insertion order. -/
def stringifyFields : List (String × JVal) → String
  | [] => ""
  | [(k, v)] => jsonQuote k ++ ":" ++ v.stringify
  | (k, v) :: rest => jsonQuote k ++ ":" ++ v.stringify ++ "," ++ stringifyFields rest

end

/-- Modelled from the spec (the `isFile` predicate lives in
`src/validation.js`, which is not part of the sources provided): a value is
upload-capable when it is a stream-like object, a raw byte buffer, an
`UploadWithOptions` wrapper, or a complete `Base64Upload` descriptor. -/
def isFile : JVal → Bool
  | .jstream _ => true
  | .jbuffer _ => true
  | .jupload _ => true
  | .jb64 _ _ _ _ => true
  | _ => false

mutual

/-- Whether a tree contains an upload-capable leaf anywhere. -/
def hasFile : JVal → Bool
  | .jarr elems => hasFileElems elems
  | .jobj fields => hasFileFields fields
  | v => isFile v

/-- `hasFile` over array elements. -/
def hasFileElems : List JVal → Bool
  | [] => false
  | v :: rest => hasFile v || hasFileElems rest

/-- `hasFile` over object fields. -/
def hasFileFields : List (String × JVal) → Bool
  | [] => false
  | (_, v) :: rest => hasFile v || hasFileFields rest

end

/-- Whether an object has a field with the given key. -/
def hasKeyStr (fields : List (String × JVal)) (k : String) : Bool :=
  fields.any (fun f => f.1 = k)

/-- A value that looks partially file-like: an object carrying some but
not all of the `data`/`filename`/`mimetype` keys of a `Base64Upload`
descriptor. -/
def looksPartiallyFileLike : JVal → Bool
  | .jobj fields =>
    let d := hasKeyStr fields "data"
    let f := hasKeyStr fields "filename"
    let m := hasKeyStr fields "mimetype"
    (d || f || m) && !(d && f && m)
  | _ => false

mutual

/-- Whether any subvalue of a tree looks partially file-like. -/
def hasPartialFileLike : JVal → Bool
  | .jarr elems => hasPartialFileLikeElems elems
  | .jobj fields => looksPartiallyFileLike (.jobj fields) || hasPartialFileLikeFields fields
  | _ => false

/-- `hasPartialFileLike` over array elements. -/
def hasPartialFileLikeElems : List JVal → Bool
  | [] => false
  | v :: rest => hasPartialFileLike v || hasPartialFileLikeElems rest

/-- `hasPartialFileLike` over object fields. -/
def hasPartialFileLikeFields : List (String × JVal) → Bool
  | [] => false
  | (_, v) :: rest => hasPartialFileLike v || hasPartialFileLikeFields rest

end

/-- Modelled from the spec (`graphQLUploadSchemaIsValid` lives in
`src/validation.js`, which is not part of the sources provided): the
variables tree is valid when no subvalue looks partially file-like — the
fail-fast guard against malformed payloads. -/
def graphQLUploadSchemaIsValid (v : JVal) : Bool := !hasPartialFileLike v

/-- JavaScript object identity of an upload leaf, used as the key of the
extracted-files map (`extract-files` keys its `Map` by the file value
itself). -/
inductive FileKey where
  | stream (id : Nat)
  | buffer (id : Nat)
  | upload (id : Nat)
  | b64 (id : Nat)
deriving DecidableEq

/-- The file key of an upload-capable leaf. -/
def fileKeyOf : JVal → Option FileKey
  | .jstream id => some (.stream id)
  | .jbuffer id => some (.buffer id)
  | .jupload id => some (.upload id)
  | .jb64 id _ _ _ => some (.b64 id)
  | _ => none

/-- The extracted-files map: insertion-ordered association from a file's
identity to the list of dotted variable paths referencing it. -/
def FilesMap := List (FileKey × List String)

/-- Record one more path for a file: push onto the existing entry when the
same file was already seen (de-duplication), else append a new entry. -/
def addPath (acc : List (FileKey × List String)) (k : FileKey) (p : String) :
    List (FileKey × List String) :=
  if acc.any (fun e => e.1 = k) then
    acc.map (fun e => if e.1 = k then (e.1, e.2 ++ [p]) else e)
  else acc ++ [(k, [p])]

/-- Dotted-path extension used by `extract-files`: `"" / k ↦ k`,
`p / k ↦ p.k`. -/
def childPath (p k : String) : String := if p = "" then k else p ++ "." ++ k

mutual

/-- Modelled from the spec (the `extract-files` package is an external
dependency): depth-first walk of the value recording the dotted path of
every upload-capable leaf, replacing the leaf with `null` in the clone,
and keying the files map by the leaf's identity; all other branches are
cloned structurally, order preserved. -/
def extractGo (p : String) : JVal → List (FileKey × List String) →
    JVal × List (FileKey × List String)
  | .jstream id, acc => (.jnull, addPath acc (.stream id) p)
  | .jbuffer id, acc => (.jnull, addPath acc (.buffer id) p)
  | .jupload id, acc => (.jnull, addPath acc (.upload id) p)
  | .jb64 id _ _ _, acc => (.jnull, addPath acc (.b64 id) p)
  | .jarr elems, acc =>
    let r := extractElems p 0 elems acc
    (.jarr r.1, r.2)
  | .jobj fields, acc =>
    let r := extractFields p fields acc
    (.jobj r.1, r.2)
  | v, acc => (v, acc)

/-- `extractGo` over array elements, paths using the element index. -/
def extractElems (p : String) (i : Nat) : List JVal → List (FileKey × List String) →
    List JVal × List (FileKey × List String)
  | [], acc => ([], acc)
  | v :: rest, acc =>
    let r1 := extractGo (childPath p (toString i)) v acc
    let r2 := extractElems p (i + 1) rest r1.2
    (r1.1 :: r2.1, r2.2)

/-- `extractGo` over object fields, paths using the field key. -/
def extractFields (p : String) : List (String × JVal) → List (FileKey × List String) →
    List (String × JVal) × List (FileKey × List String)
  | [], acc => ([], acc)
  | (k, v) :: rest, acc =>
    let r1 := extractGo (childPath p k) v acc
    let r2 := extractFields p rest r1.2
    ((k, r1.1) :: r2.1, r2.2)

end

/-- `extractFiles(originalOperation, '', isFile)`: returns the scrubbed
clone and the ordered files map. -/
def extractFiles (v : JVal) : JVal × List (FileKey × List String) :=
  extractGo "" v []

/-- One part of a multipart form body: a plain string field
(`operations`, `map`) or an indexed file part. -/
inductive Part where
  | field (name : String) (value : String)
  | filePart (name : String) (file : FileKey)
deriving DecidableEq

/-- The request body: a plain JSON string or a multipart form. -/
inductive Body where
  | jsonBody (s : String)
  | formBody (parts : List Part)
deriving DecidableEq

/-- The fetch options built by `requestGraphQL` (method, headers, body,
and whether an abort signal was attached). -/
structure GQLOptions where
  method : String
  headers : List (String × String)
  body : Body
  hasSignal : Bool
deriving DecidableEq

/-- The `map` object built by `requestGraphQL`: 1-based integer keys in
file-map insertion order, each mapping to that file's list of dotted
paths (`map[++i] = paths`). -/
def filesMapObj (fm : List (FileKey × List String)) : JVal :=
  .jobj (fm.enum.map (fun e => (toString (e.1 + 1), .jarr (e.2.2.map .jstr))))

/-- The indexed file parts appended by `requestGraphQL`
(`form.append(`...`${++i}`...`, file, appendOptions)`). -/
def filePartsOf (fm : List (FileKey × List String)) : List Part :=
  fm.enum.map (fun e => .filePart (toString (e.1 + 1)) e.2.1)

/-- The GraphQL operation object `{ query, variables }`. -/
def operationOf (query vars : JVal) : JVal :=
  .jobj [("query", query), ("variables", vars)]

/-- The body/header-building part of `requestGraphQL` (everything before
the network call): extract files from the operation, validate the upload
schema (throwing `Invalid File schema detected` on failure), then build
either a multipart form (files present) or a plain JSON body. -/
def buildGraphQLOptions (query vars : JVal) : Except String GQLOptions :=
  if !graphQLUploadSchemaIsValid (operationOf query vars) then
    .error "Invalid File schema detected"
  else if (extractFiles (operationOf query vars)).2.length ≠ 0 then
    .ok { method := "POST", headers := [],
          body := .formBody
            (.field "operations" (extractFiles (operationOf query vars)).1.stringify ::
              .field "map" (filesMapObj (extractFiles (operationOf query vars)).2).stringify ::
              filePartsOf (extractFiles (operationOf query vars)).2),
          hasSignal := true }
  else
    .ok { method := "POST", headers := [("Content-Type", "application/json")],
          body := .jsonBody (extractFiles (operationOf query vars)).1.stringify,
          hasSignal := false }

/-- A possibly-`undefined`, possibly-`null` JS string value, as it occurs
for `clientOptions.dataType`. -/
inductive JSStrVal where
  | undef
  | nullv
  | str (s : String)
deriving DecidableEq

/-- JS truthiness of such a value. -/
def truthyJS : JSStrVal → Bool
  | .str s => s ≠ ""
  | _ => false

/-- Destructuring with a default (`const { dataType = DATA_TYPE_BUFFER } =
clientOptions`): only `undefined` takes the default. -/
def withDefault (v : JSStrVal) (d : String) : JSStrVal :=
  match v with
  | .undef => .str d
  | x => x

/-- The string carried by a `JSStrVal` (meaningful only when truthy). -/
def strOf : JSStrVal → String
  | .str s => s
  | .nullv => "null"
  | .undef => "undefined"

/-- An HTTP response as the executor sees it: status, the
`retry-after` header (`none` when absent), and the body under its three
consumable forms (`json()`, `buffer()`, `body`). -/
structure Response where
  status : Nat
  retryAfter : Option String
  json : JVal
  bufferData : List Nat
  bodyStream : Nat

/-- Decoded response data, by declared data type. -/
inductive RData where
  | stream (id : Nat)
  | buffer (bytes : List Nat)
  | jsonData (v : JVal)

/-- The value `_wrapRequest` resolves with: `{statusCode, errors}`,
`{statusCode, ...json}`, or `{response, data, statusCode}`. -/
inductive WrapResult where
  | err (statusCode : Nat) (errors : JVal)
  | errSpread (statusCode : Nat) (body : JVal)
  | success (statusCode : Nat) (data : RData) (response : Response)

/-- The status code of a wrap result. -/
def WrapResult.statusCode : WrapResult → Nat
  | .err s _ => s
  | .errSpread s _ => s
  | .success s _ _ => s

/-- One evaluation of the retryable function: either a retry directive
with its delay, or a final result. -/
inductive StepResult where
  | retry (delayMS : Int)
  | done (r : WrapResult)

/-- The error shaping of `_wrapRequest`:
`const errors = json.errors || (json.message && [json])`. -/
def errorsOf (json : JVal) : Option JVal :=
  jsOr (json.get "errors") (jsAnd (json.get "message") (some (.jarr [json])))

/-- The `dataType` dispatch of the success branch
(`stream`/`buffer`/`json`, any other value warns and defaults to json). -/
def decodeData (dataType : JSStrVal) (response : Response) : RData :=
  match dataType with
  | .str "stream" => .stream response.bodyStream
  | .str "buffer" => .buffer response.bufferData
  | .str "json" => .jsonData response.json
  | _ => .jsonData response.json

/-- The body of the function `_wrapRequest` passes to `_throttle`,
evaluated on one physical response: 429 becomes a retry directive with
the computed delay; other `status ≥ 300` is decoded as JSON and shaped
into the error result (`{statusCode, errors}` when the shaped errors are
truthy, else `{statusCode, ...json}`); `status < 300` is a success with
the body decoded per `clientOptions.dataType`. -/
def wrapStep (dataType : JSStrVal) (response : Response) : StepResult :=
  if 300 ≤ response.status then
    if response.status = 429 then .retry (getRetryMS response.retryAfter)
    else if truthyO (errorsOf response.json) then
      .done (.err response.status ((errorsOf response.json).getD .jnull))
    else .done (.errSpread response.status response.json)
  else .done (.success response.status (decodeData dataType response) response)

/-- Observable events of the throttled retry loop: a rate-limiter token
acquisition (`this.limiter.removeTokens(1, ...)`, including any
limiter-imposed wait), a physical transport call, and a retry sleep. -/
inductive Ev where
  | acquire
  | call (idx : Nat)
  | wait (ms : Int)

/-- The retry loop of `_throttle`/`_wrapRequest` over a scripted
transport (`transport n` is the response to the `n`-th physical call),
driven by explicit fuel since the source retries without bound; `none`
means the fuel ran out with the loop still retrying.  Returns the event
trace and the final result. -/
def throttleRun (dataType : JSStrVal) (transport : Nat → Response) :
    Nat → Nat → List Ev × Option WrapResult
  | 0, _ => ([], none)
  | fuel + 1, idx =>
    match wrapStep dataType (transport idx) with
    | .retry ms =>
      let r := throttleRun dataType transport fuel (idx + 1)
      (.acquire :: .call idx :: .wait ms :: r.1, r.2)
    | .done res => ([.acquire, .call idx], some res)

/-- Number of physical transport calls in a trace. -/
def countCalls (t : List Ev) : Nat :=
  (t.filter (fun e => match e with | .call _ => true | _ => false)).length

/-- `requestGraphQL` end to end: build the body (which may throw), then
run the throttled executor.  An `error` result happened strictly before
any transport activity. -/
def requestGraphQLRun (query vars : JVal) (dataType : JSStrVal)
    (transport : Nat → Response) (fuel : Nat) :
    Except String (List Ev × Option WrapResult) :=
  match buildGraphQLOptions query vars with
  | .error e => .error e
  | .ok _ => .ok (throttleRun dataType transport fuel 0)

/-- Physical transport calls made by a `requestGraphQLRun` outcome. -/
def transportCallCount : Except String (List Ev × Option WrapResult) → Nat
  | .error _ => 0
  | .ok r => countCalls r.1

/-- The REST request descriptor an operation hands to `requestREST`:
url, fetch options, and the resolved `dataType` client option. -/
structure RESTCall where
  url : String
  method : String
  body : Option String
  headers : List (String × String)
  dataType : JSStrVal
deriving DecidableEq

/-- `supportedDataTypes` for the binary REST operations. -/
def supportedDataTypes : List String := ["stream", "buffer"]

/-- The `dataType` guard shared by `fillPDF`, `generatePDF` and
`downloadDocuments`: `if (dataType && !supportedDataTypes.includes(dataType))
throw`. -/
def dataTypeGuardFails (dataType : JSStrVal) : Bool :=
  truthyJS dataType && !supportedDataTypes.contains (strOf dataType)

/-- `fillPDF(pdfTemplateID, payload, clientOptions)` up to the
`requestREST` call: validate `dataType` (default `buffer`), then build
the POST descriptor. -/
def fillPDF (pdfTemplateID : String) (payload : JVal) (dataTypeOpt : JSStrVal) :
    Except String RESTCall :=
  if dataTypeGuardFails (withDefault dataTypeOpt "buffer") then
    .error ("dataType must be one of: " ++ String.intercalate "|" supportedDataTypes)
  else
    .ok { url := "/api/v1/fill/" ++ pdfTemplateID ++ ".pdf", method := "POST",
          body := some payload.stringify,
          headers := [("Content-Type", "application/json")],
          dataType := withDefault dataTypeOpt "buffer" }

/-- `generatePDF(payload, clientOptions)` up to the `requestREST` call. -/
def generatePDF (payload : JVal) (dataTypeOpt : JSStrVal) : Except String RESTCall :=
  if dataTypeGuardFails (withDefault dataTypeOpt "buffer") then
    .error ("dataType must be one of: " ++ String.intercalate "|" supportedDataTypes)
  else
    .ok { url := "/api/v1/generate-pdf", method := "POST",
          body := some payload.stringify,
          headers := [("Content-Type", "application/json")],
          dataType := withDefault dataTypeOpt "buffer" }

/-- `downloadDocuments(documentGroupEid, clientOptions)` up to the
`requestREST` call. -/
def downloadDocuments (documentGroupEid : String) (dataTypeOpt : JSStrVal) :
    Except String RESTCall :=
  if dataTypeGuardFails (withDefault dataTypeOpt "buffer") then
    .error ("dataType must be one of: " ++ String.intercalate "|" supportedDataTypes)
  else
    .ok { url := "/api/document-group/" ++ documentGroupEid ++ ".zip", method := "GET",
          body := none, headers := [],
          dataType := withDefault dataTypeOpt "buffer" }

/-- The base64 alphabet. -/
def b64Alphabet : List Char :=
  "ABCDEFGHIJKLMNOPQRSTUVWXYZabcdefghijklmnopqrstuvwxyz0123456789+/".data

/-- Character of a 6-bit value. -/
def b64Char (n : Nat) : Char := b64Alphabet.getD n 'A'

/-- Standard base64 encoding of a byte list, with padding — the model of
`Buffer.prototype.toString('base64')`. -/
def base64EncodeBytes : List Nat → String
  | [] => ""
  | [a] => String.mk [b64Char (a / 4), b64Char (a % 4 * 16)] ++ "=="
  | [a, b] =>
    String.mk [b64Char (a / 4), b64Char (a % 4 * 16 + b / 16), b64Char (b % 16 * 4)] ++ "="
  | a :: b :: c :: rest =>
    String.mk [b64Char (a / 4), b64Char (a % 4 * 16 + b / 16),
      b64Char (b % 16 * 4 + c / 64), b64Char (c % 64)] ++ base64EncodeBytes rest

/-- `Buffer.from(s, 'ascii')`: byte per character, high bit stripped. -/
def asciiBytes (s : String) : List Nat := s.data.map (fun c => c.toNat % 128)

/-- `Buffer.from(s, 'ascii').toString('base64')`. -/
def b64ascii (s : String) : String := base64EncodeBytes (asciiBytes s)

/-- The 6-bit value of a base64 character (`none` for non-alphabet
characters, which `Buffer.from(·, 'base64')` skips). -/
def b64Val (c : Char) : Option Nat := b64Alphabet.findIdx? (fun x => x = c)

/-- Reassemble bytes from 6-bit values. -/
def b64DecodeVals : List Nat → List Nat
  | a :: b :: c :: d :: rest =>
    (a * 4 + b / 16) :: (b % 16 * 16 + c / 4) :: (c % 4 * 64 + d) :: b64DecodeVals rest
  | [a, b, c] => [a * 4 + b / 16, b % 16 * 16 + c / 4]
  | [a, b] => [a * 4 + b / 16]
  | _ => []

/-- `Buffer.from(s, 'base64')`: decode, ignoring non-alphabet input. -/
def base64DecodeStr (s : String) : List Nat :=
  b64DecodeVals (s.data.filterMap b64Val)

/-- The authorization-header derivation inside the constructor, together
with its credential guard: `accessToken ? Bearer base64(accessToken) :
Basic base64(apiKey + ':')`, after
`if (!(apiKey || accessToken)) throw`. -/
def mkAuthHeader (apiKey accessToken : Option String) : Except String String :=
  if truthyS apiKey || truthyS accessToken then
    .ok (if truthyS accessToken then "Bearer " ++ b64ascii (accessToken.getD "")
         else "Basic " ++ b64ascii ((apiKey.getD "") ++ ":"))
  else .error "apiKey or accessToken required"

/-- Key lookup in a JS-object-like header list (first match). -/
def lookupHdr (l : List (String × String)) (k : String) : Option String :=
  (l.find? (fun e => e.1 = k)).map (·.2)

/-- Whether a header object has a key. -/
def hasHdr (l : List (String × String)) (k : String) : Bool :=
  l.any (fun e => e.1 = k)

/-- JS object spread `{...a, ...b}` on string-keyed objects: `a`'s keys in
order with `b`'s values where both have the key, then `b`'s new keys. -/
def spreadObj (a b : List (String × String)) : List (String × String) :=
  a.map (fun e => (e.1, (lookupHdr b e.1).getD e.2)) ++ b.filter (fun e => !hasHdr a e.1)

/-- Fetch options as `_addHeaders` sees them: whatever headers the caller
put on the request. -/
structure FetchOptions where
  method : String
  headers : List (String × String)
deriving DecidableEq

/-- `_addDefaultHeaders`: `_addHeaders` with `defaults = true`, i.e. the
caller's headers spread-overridden by `{'User-Agent': userAgent,
Authorization: authHeader}`.  `_request` applies this to every outbound
request. -/
def addDefaultHeaders (userAgent authHeader : String) (options : FetchOptions) :
    FetchOptions :=
  { options with
    headers := spreadObj options.headers
      [("User-Agent", userAgent), ("Authorization", authHeader)] }

/-- An upload descriptor after preparation. -/
inductive Upload where
  | base64Upload (data filename mimetype : String)
  | bufferUpload (bytes : List Nat) (filename mimetype : String)
deriving DecidableEq

/-- The options object of `_prepareGraphQLBase64`. -/
structure B64Options where
  filename : Option String
  mimetype : Option String
  bufferize : Bool
deriving DecidableEq

/-- Modelled from the spec (`_prepareGraphQLBuffer` is not among the
sources provided): a buffer upload resolves to the byte buffer plus the
filename/mimetype metadata from the options. -/
def prepareGraphQLBuffer (buffer : List Nat) (options : B64Options) : Upload :=
  .bufferUpload buffer (options.filename.getD "") (options.mimetype.getD "")

/-- `_prepareGraphQLBase64(data, options)`: filename and mimetype are
required; with `bufferize` the base64 data is decoded and handed to
`_prepareGraphQLBuffer`; otherwise `{data, filename, mimetype}` is
returned as-is. -/
def prepareGraphQLBase64 (data : String) (options : B64Options) : Except String Upload :=
  if !truthyS options.filename then
    .error "options.filename must be provided for Base64 upload"
  else if !truthyS options.mimetype then
    .error "options.mimetype must be provided for Base64 upload"
  else if options.bufferize then
    .ok (prepareGraphQLBuffer (base64DecodeStr data) options)
  else
    .ok (.base64Upload data (options.filename.getD "") (options.mimetype.getD ""))

/-! ### Helper lemmas -/

/-- Evaluation of the delay for `retry-after: "0.2"`. -/
theorem getRetryMS_02 : getRetryMS (some "0.2") = 250 := by
  have h : parseFloatLit "0.2" = some ⟨false, 0, 2, 1, 0⟩ := by decide
  simp only [getRetryMS, parseFloatQ, Option.some_bind, h, Option.map_some]
  norm_num [floatLitVal, jsOrZeroQ, jsRound, failBufferMS, abs_of_nonneg]

/-- A 429 response makes the wrapped step a retry directive with the
computed delay. -/
theorem wrapStep_429 (dt : JSStrVal) (resp : Response) (h : resp.status = 429) :
    wrapStep dt resp = .retry (getRetryMS resp.retryAfter) := by
  unfold wrapStep
  rw [h]
  simp

/-- A completed step carries the physical status code, which is never
429 (429 always becomes a retry directive). -/
theorem wrapStep_done_status (dt : JSStrVal) (resp : Response) (res : WrapResult)
    (h : wrapStep dt resp = .done res) :
    res.statusCode = resp.status ∧ resp.status ≠ 429 := by
  by_cases h429 : resp.status = 429
  · rw [wrapStep_429 dt resp h429] at h
    exact absurd h (by simp)
  · refine ⟨?_, h429⟩
    unfold wrapStep at h
    rw [if_neg h429] at h
    split at h
    · split at h <;> (cases h; rfl)
    · cases h; rfl

/-- A result surfaced by the retry loop always comes from a completed
step, hence never carries status 429. -/
theorem throttleRun_result_ne_429 (dt : JSStrVal) (transport : Nat → Response) :
    ∀ fuel idx r, (throttleRun dt transport fuel idx).2 = some r →
      r.statusCode ≠ 429 := by
  intro fuel
  induction fuel with
  | zero => intro idx r h; exact absurd h (by simp [throttleRun])
  | succ n ih =>
    intro idx r h
    unfold throttleRun at h
    split at h
    · exact ih (idx + 1) r h
    · rename_i res heq
      simp only at h
      cases h
      obtain ⟨h1, h2⟩ := wrapStep_done_status dt (transport idx) _ heq
      rw [h1]
      exact h2

/-- One-step unfolding of the retry loop. -/
theorem throttleRun_succ (dt : JSStrVal) (transport : Nat → Response) (fuel idx : Nat) :
    throttleRun dt transport (fuel + 1) idx =
      match wrapStep dt (transport idx) with
      | .retry ms =>
        ((.acquire : Ev) :: .call idx :: .wait ms ::
          (throttleRun dt transport fuel (idx + 1)).1,
         (throttleRun dt transport fuel (idx + 1)).2)
      | .done res => ([.acquire, .call idx], some res) := rfl

/-- The scripted transport of the 429-then-200 scenario: first physical
call is throttled with `retry-after: "0.2"`, every further call succeeds
with the JSON payload `{result: "ok"}`. -/
def resp429 : Response := ⟨429, some "0.2", .jnull, [], 0⟩

/-- 200 response carrying `{result: "ok"}`. -/
def resp200ok : Response := ⟨200, none, .jobj [("result", .jstr "ok")], [], 0⟩

/-- Transport script: 429 once, then 200. -/
def transport429then200 : Nat → Response := fun i => if i = 0 then resp429 else resp200ok

/-! ### Claim theorems -/

/-- **C1**: a 429 response makes the executor wait the computed delay and
re-enter the rate limiter for a fresh physical attempt of the same
logical request, with no retry bound (every unit of fuel spent on a 429
yields a further acquire/call round); no surfaced result ever carries
status 429; and on a transport that returns 429 once (retry-after "0.2")
and then 200, exactly two physical calls happen — each preceded by its
own token acquisition — and the 200 JSON payload is returned. -/
theorem throttle_retries_429 :
    (∀ dt transport fuel idx r,
      (throttleRun dt transport fuel idx).2 = some r → r.statusCode ≠ 429) ∧
    (∀ dt transport fuel idx, (transport idx).status = 429 →
      throttleRun dt transport (fuel + 1) idx =
        (.acquire :: .call idx :: .wait (getRetryMS (transport idx).retryAfter) ::
          (throttleRun dt transport fuel (idx + 1)).1,
         (throttleRun dt transport fuel (idx + 1)).2)) ∧
    (∀ f, throttleRun (.str "json") transport429then200 (f + 1 + 1) 0 =
        ([.acquire, .call 0, .wait 250, .acquire, .call 1],
         some (.success 200 (.jsonData (.jobj [("result", .jstr "ok")])) resp200ok)) ∧
      countCalls [.acquire, .call 0, .wait 250, .acquire, .call 1] = 2) := by
  refine ⟨fun dt tr fuel idx r h => throttleRun_result_ne_429 dt tr fuel idx r h,
    fun dt tr fuel idx h => ?_, fun f => ⟨?_, rfl⟩⟩
  · rw [throttleRun_succ, wrapStep_429 dt (tr idx) h]
  · have h0 : wrapStep (.str "json") (transport429then200 0) = .retry 250 := by
      rw [show transport429then200 0 = resp429 from rfl,
        wrapStep_429 (.str "json") resp429 rfl,
        show resp429.retryAfter = some "0.2" from rfl, getRetryMS_02]
    have h1 : wrapStep (.str "json") (transport429then200 1) =
        .done (.success 200 (.jsonData (.jobj [("result", .jstr "ok")])) resp200ok) := rfl
    rw [throttleRun_succ, h0]
    simp only
    rw [throttleRun_succ, h1]

/-- Witness for C1 at the concrete 429-then-200 scenario. -/
theorem throttle_retries_429_witness :
    (WrapResult.success 200 (.jsonData (.jobj [("result", .jstr "ok")]))
        resp200ok).statusCode ≠ 429 ∧
    throttleRun (.str "json") transport429then200 (1 + 1) 0 =
      (.acquire :: .call 0 :: .wait (getRetryMS (transport429then200 0).retryAfter) ::
        (throttleRun (.str "json") transport429then200 1 1).1,
       (throttleRun (.str "json") transport429then200 1 1).2) := by
  have hr := (throttle_retries_429.2.2 0).1
  refine ⟨throttle_retries_429.1 (.str "json") transport429then200 (0 + 1 + 1) 0 _
      (by rw [hr]), ?_⟩
  exact throttle_retries_429.2.1 (.str "json") transport429then200 1 0 rfl

/-- **C2**: the retry delay in milliseconds is
`round(abs(parseFloat(retryAfter) || 0) * 1000) + 50` for every
`retry-after` header value — the code's
`Math.round((Math.abs(parseFloat(x)) || 0) * 1000) + 50` agrees with the
spec's formula on all inputs; in particular an absent or unparseable
header yields exactly 50 ms, `"0.2"` yields 250 ms, and a negative
`"-0.2"` also yields 250 ms. -/
theorem retry_delay_formula :
    (∀ ra : Option String, getRetryMS ra = getRetryMSSpec ra) ∧
    getRetryMS none = 50 ∧
    getRetryMS (some "0.2") = 250 ∧
    getRetryMS (some "nope") = 50 ∧
    getRetryMS (some "-0.2") = 250 ∧
    getRetryMS (some "3") = 3050 := by
  refine ⟨fun ra => ?_, ?_, getRetryMS_02, ?_, ?_, ?_⟩
  · unfold getRetryMS getRetryMSSpec jsOrZeroQ failBufferMS
    cases h : ra.bind parseFloatQ with
    | none => simp
    | some q =>
      simp only [Option.map_some]
      by_cases hq : q = 0
      · simp [hq]
      · simp [hq, abs_eq_zero, abs_abs]
  · norm_num [getRetryMS, jsOrZeroQ, jsRound, failBufferMS]
  · have h : parseFloatLit "nope" = none := by decide
    simp only [getRetryMS, parseFloatQ, Option.some_bind, h, Option.map_none]
    norm_num [jsOrZeroQ, jsRound, failBufferMS]
  · have h : parseFloatLit "-0.2" = some ⟨true, 0, 2, 1, 0⟩ := by decide
    simp only [getRetryMS, parseFloatQ, Option.some_bind, h, Option.map_some]
    norm_num [floatLitVal, jsOrZeroQ, jsRound, failBufferMS, abs_of_nonneg, abs_of_nonpos]
  · have h : parseFloatLit "3" = some ⟨false, 3, 0, 0, 0⟩ := by decide
    simp only [getRetryMS, parseFloatQ, Option.some_bind, h, Option.map_some]
    norm_num [floatLitVal, jsOrZeroQ, jsRound, failBufferMS, abs_of_nonneg]

/-- **C3** counterexample: on a 401 whose body is
`{name: "AuthorizationError", message: "problem"}` the executor returns
`errors = [body]` (the whole decoded body wrapped), which differs from
the claimed `errors = [body.message]` (`["problem"]`). -/
theorem remote_error_counterexample :
    wrapStep (.str "json")
      ⟨401, none,
        .jobj [("name", .jstr "AuthorizationError"), ("message", .jstr "problem")],
        [], 0⟩ =
      .done (.err 401 (.jarr [.jobj [("name", .jstr "AuthorizationError"),
        ("message", .jstr "problem")]])) ∧
    JVal.jarr [.jobj [("name", .jstr "AuthorizationError"), ("message", .jstr "problem")]] ≠
      .jarr [.jstr "problem"] := by
  refine ⟨rfl, fun h => ?_⟩
  simp at h

/-- **C3** (amended): for every response with status ≥ 300 other than
429 the executor returns a value (never a retry, never an exception):
`{statusCode, errors: body.errors}` when the decoded body has a truthy
`errors` field; otherwise `{statusCode, errors: [body]}` — the entire
decoded body wrapped as a single-element error list — when the body has
a truthy `message` field; otherwise the entire decoded body merged with
`statusCode`. -/
theorem remote_error_as_value (dt : JSStrVal) (resp : Response)
    (h300 : 300 ≤ resp.status) (h429 : resp.status ≠ 429) :
    (∃ res, wrapStep dt resp = .done res) ∧
    (∀ ev, resp.json.get "errors" = some ev → ev.truthy = true →
      wrapStep dt resp = .done (.err resp.status ev)) ∧
    (truthyO (resp.json.get "errors") = false →
      ∀ mv, resp.json.get "message" = some mv → mv.truthy = true →
        wrapStep dt resp = .done (.err resp.status (.jarr [resp.json]))) ∧
    (truthyO (resp.json.get "errors") = false →
      truthyO (resp.json.get "message") = false →
        wrapStep dt resp = .done (.errSpread resp.status resp.json)) := by
  have hw : wrapStep dt resp =
      if truthyO (errorsOf resp.json) then
        .done (.err resp.status ((errorsOf resp.json).getD .jnull))
      else .done (.errSpread resp.status resp.json) := by
    unfold wrapStep
    rw [if_pos h300, if_neg h429]
  refine ⟨?_, fun ev hev ht => ?_, fun hne mv hmv ht => ?_, fun hne hnm => ?_⟩
  · rw [hw]
    split
    · exact ⟨_, rfl⟩
    · exact ⟨_, rfl⟩
  · have he : errorsOf resp.json = some ev := by
      simp [errorsOf, jsOr, hev, truthyO, ht]
    rw [hw, he]
    simp [truthyO, ht]
  · have he : errorsOf resp.json = some (.jarr [resp.json]) := by
      unfold errorsOf jsOr
      rw [hne]
      simp only [Bool.false_eq_true, if_false]
      unfold jsAnd
      rw [hmv]
      simp [truthyO, ht]
    rw [hw, he]
    simp [truthyO, JVal.truthy]
  · have hA : jsAnd (resp.json.get "message") (some (.jarr [resp.json])) =
        resp.json.get "message" := by
      unfold jsAnd
      rw [hnm]
      simp
    have he : truthyO (errorsOf resp.json) = false := by
      unfold errorsOf jsOr
      rw [hne]
      simp only [Bool.false_eq_true, if_false]
      rw [hA, hnm]
    rw [hw, he]
    simp

mutual

/-- Extraction leaves a tree without upload-capable leaves untouched and
adds nothing to the files map. -/
theorem extractGo_nofile (p : String) (v : JVal) (acc : List (FileKey × List String))
    (h : hasFile v = false) : extractGo p v acc = (v, acc) := by
  cases v with
  | jarr elems =>
    have hrec := extractElems_nofile p 0 elems acc (by simpa [hasFile] using h)
    simp [extractGo, hrec]
  | jobj fields =>
    have hrec := extractFields_nofile p fields acc (by simpa [hasFile] using h)
    simp [extractGo, hrec]
  | jstream id => simp [hasFile, isFile] at h
  | jbuffer id => simp [hasFile, isFile] at h
  | jupload id => simp [hasFile, isFile] at h
  | jb64 id d f m => simp [hasFile, isFile] at h
  | jnull => rfl
  | jbool b => rfl
  | jnum n => rfl
  | jstr s => rfl

/-- `extractGo_nofile` over array elements. -/
theorem extractElems_nofile (p : String) (i : Nat) (xs : List JVal)
    (acc : List (FileKey × List String)) (h : hasFileElems xs = false) :
    extractElems p i xs acc = (xs, acc) := by
  cases xs with
  | nil => rfl
  | cons v rest =>
    have hv : hasFile v = false := by
      simp [hasFileElems] at h
      exact h.1
    have hrest : hasFileElems rest = false := by
      simp [hasFileElems] at h
      exact h.2
    simp [extractElems, extractGo_nofile (childPath p (toString i)) v acc hv,
      extractElems_nofile p (i + 1) rest acc hrest]

/-- `extractGo_nofile` over object fields. -/
theorem extractFields_nofile (p : String) (fields : List (String × JVal))
    (acc : List (FileKey × List String)) (h : hasFileFields fields = false) :
    extractFields p fields acc = (fields, acc) := by
  cases fields with
  | nil => rfl
  | cons kv rest =>
    have hv : hasFile kv.2 = false := by
      cases kv
      simp [hasFileFields] at h
      exact h.1
    have hrest : hasFileFields rest = false := by
      cases kv
      simp [hasFileFields] at h
      exact h.2
    cases kv with
    | mk k v =>
      simp [extractFields, extractGo_nofile (childPath p k) v acc (by simpa using hv),
        extractFields_nofile p rest acc hrest]

end

/-- Witness for C3 (amended) on a concrete 400 with an `errors` array. -/
theorem remote_error_as_value_witness :
    wrapStep (.str "json")
      ⟨400, none, .jobj [("errors", .jarr [.jobj [("message", .jstr "problem")]])], [], 0⟩ =
      .done (.err 400 (.jarr [.jobj [("message", .jstr "problem")]])) := by
  exact (remote_error_as_value (.str "json")
      ⟨400, none, .jobj [("errors", .jarr [.jobj [("message", .jstr "problem")]])], [], 0⟩
      (by norm_num) (by norm_num)).2.1
    (.jarr [.jobj [("message", .jstr "problem")]]) rfl rfl

/-- **C4**: when the extracted file map is non-empty, the built request
is a multipart form whose `map` part is the JSON of the object mapping
the 1-based index (as a string key, insertion order of the file map) to
each file's list of dotted paths, and whose file parts are named by the
same indices; an upload referenced at two variable paths produces
exactly one file-map entry whose single index lists both paths. -/
theorem multipart_map_encoding :
    (∀ q v, graphQLUploadSchemaIsValid (operationOf q v) = true →
      (extractFiles (operationOf q v)).2 ≠ [] →
      buildGraphQLOptions q v = .ok
        { method := "POST", headers := [],
          body := .formBody
            (.field "operations" (extractFiles (operationOf q v)).1.stringify ::
              .field "map" (filesMapObj (extractFiles (operationOf q v)).2).stringify ::
              filePartsOf (extractFiles (operationOf q v)).2),
          hasSignal := true }) ∧
    (∀ fm : List (FileKey × List String), ∀ k : Nat, ∀ e, fm[k]? = some e →
      ∃ entries, filesMapObj fm = .jobj entries ∧ entries.length = fm.length ∧
        entries[k]? = some (toString (k + 1), .jarr (e.2.map .jstr)) ∧
        (filePartsOf fm)[k]? = some (.filePart (toString (k + 1)) e.1)) ∧
    (extractFiles (operationOf (.jstr "q") (.jobj [("a", .jstream 7), ("b", .jstream 7)])) =
        (operationOf (.jstr "q") (.jobj [("a", .jnull), ("b", .jnull)]),
         [(.stream 7, ["variables.a", "variables.b"])]) ∧
      (filesMapObj [(.stream 7, ["variables.a", "variables.b"])]).stringify =
        "\x7b\"1\":[\"variables.a\",\"variables.b\"]\x7d" ∧
      filePartsOf [(.stream 7, ["variables.a", "variables.b"])] =
        [.filePart "1" (.stream 7)]) := by
  refine ⟨fun q v hvalid hne => ?_, fun fm k e he => ?_, rfl, rfl, rfl⟩
  · unfold buildGraphQLOptions
    rw [hvalid]
    have hlen : ((extractFiles (operationOf q v)).2.length ≠ 0) := by
      simpa [List.length_eq_zero] using hne
    simp [hlen]
  · refine ⟨_, rfl, by simp [filesMapObj, List.enum_length], ?_, ?_⟩
    · show (fm.enum.map _)[k]? = _
      rw [List.getElem?_map, List.getElem?_enum, he]
      rfl
    · unfold filePartsOf
      rw [List.getElem?_map, List.getElem?_enum, he]
      rfl

/-- Witness for C4 at the shared-upload example (`jstream 7` at both
`variables.a` and `variables.b`). -/
theorem multipart_map_encoding_witness :
    buildGraphQLOptions (.jstr "q") (.jobj [("a", .jstream 7), ("b", .jstream 7)]) = .ok
      { method := "POST", headers := [],
        body := .formBody
          [.field "operations"
            "\x7b\"query\":\"q\",\"variables\":\x7b\"a\":null,\"b\":null\x7d\x7d",
           .field "map" "\x7b\"1\":[\"variables.a\",\"variables.b\"]\x7d",
           .filePart "1" (.stream 7)],
        hasSignal := true } ∧
    (∃ entries,
      filesMapObj [(FileKey.stream 7, ["variables.a", "variables.b"])] = .jobj entries ∧
      entries.length = [(FileKey.stream 7, ["variables.a", "variables.b"])].length ∧
      entries[0]? = some (toString (0 + 1), .jarr (["variables.a", "variables.b"].map .jstr)) ∧
      (filePartsOf [(FileKey.stream 7, ["variables.a", "variables.b"])])[0]? =
        some (.filePart (toString (0 + 1)) (.stream 7))) := by
  constructor
  · exact multipart_map_encoding.1 (.jstr "q") (.jobj [("a", .jstream 7), ("b", .jstream 7)])
      rfl (by intro h; simp [extractFiles, extractGo, extractFields, extractElems, addPath,
        operationOf, childPath] at h)
  · exact multipart_map_encoding.2.1 [(FileKey.stream 7, ["variables.a", "variables.b"])]
      0 (FileKey.stream 7, ["variables.a", "variables.b"]) rfl

/-- **C5**: a GraphQL request whose operation contains no upload-capable
leaves has an empty extracted file map, and the built request is the
plain JSON string of `{query, variables}` with header
`Content-Type: application/json` — no multipart form is constructed. -/
theorem nofiles_json_fastpath (q v : JVal)
    (hnf : hasFile (operationOf q v) = false)
    (hvalid : graphQLUploadSchemaIsValid (operationOf q v) = true) :
    (extractFiles (operationOf q v)).2 = [] ∧
    buildGraphQLOptions q v = .ok
      { method := "POST", headers := [("Content-Type", "application/json")],
        body := .jsonBody (operationOf q v).stringify, hasSignal := false } := by
  have hex : extractFiles (operationOf q v) = (operationOf q v, []) :=
    extractGo_nofile "" (operationOf q v) [] hnf
  refine ⟨by rw [hex], ?_⟩
  unfold buildGraphQLOptions
  rw [hvalid, hex]
  simp

/-- Witness for C5 at a concrete file-free operation. -/
theorem nofiles_json_fastpath_witness :
    buildGraphQLOptions (.jstr "q") (.jobj [("baz", .jstr "bop")]) = .ok
      { method := "POST", headers := [("Content-Type", "application/json")],
        body := .jsonBody "\x7b\"query\":\"q\",\"variables\":\x7b\"baz\":\"bop\"\x7d\x7d",
        hasSignal := false } :=
  (nofiles_json_fastpath (.jstr "q") (.jobj [("baz", .jstr "bop")]) rfl rfl).2

/-- **C6**: a variables tree containing a partially file-like value
(some but not all of `data`/`filename`/`mimetype`) makes
`requestGraphQL` raise the schema error before any network I/O: the run
is an `Invalid File schema detected` error and zero physical calls reach
the transport. -/
theorem schema_error_before_network (q v : JVal) (dt : JSStrVal)
    (transport : Nat → Response) (fuel : Nat)
    (h : hasPartialFileLike v = true) :
    requestGraphQLRun q v dt transport fuel = .error "Invalid File schema detected" ∧
    transportCallCount (requestGraphQLRun q v dt transport fuel) = 0 := by
  have hop : hasPartialFileLike (operationOf q v) = true := by
    simp [operationOf, hasPartialFileLike, hasPartialFileLikeFields, h]
  have hb : buildGraphQLOptions q v = .error "Invalid File schema detected" := by
    unfold buildGraphQLOptions
    simp [graphQLUploadSchemaIsValid, hop]
  constructor
  · unfold requestGraphQLRun
    rw [hb]
  · unfold requestGraphQLRun
    rw [hb]
    rfl

/-- Witness for C6 at the spec's own example
(`{file: {data: ..., filename: "x"}}`, `mimetype` missing). -/
theorem schema_error_before_network_witness :
    requestGraphQLRun (.jstr "q")
        (.jobj [("file", .jobj [("data", .jstr "aGk="), ("filename", .jstr "x")])])
        (.str "json") (fun _ => resp200ok) 3 =
      .error "Invalid File schema detected" ∧
    transportCallCount (requestGraphQLRun (.jstr "q")
        (.jobj [("file", .jobj [("data", .jstr "aGk="), ("filename", .jstr "x")])])
        (.str "json") (fun _ => resp200ok) 3) = 0 :=
  schema_error_before_network (.jstr "q")
    (.jobj [("file", .jobj [("data", .jstr "aGk="), ("filename", .jstr "x")])])
    (.str "json") (fun _ => resp200ok) 3 rfl

/-- **C7**: preparing a Base64Upload fails synchronously when `filename`
or `mimetype` is missing from the options; with both present and
`bufferize` set the descriptor becomes a BufferUpload carrying the
decoded bytes; otherwise the `{data, filename, mimetype}` descriptor is
returned as-is. -/
theorem base64_upload_preparation (data : String) (fn mt : Option String) (bf : Bool) :
    (truthyS fn = false →
      prepareGraphQLBase64 data ⟨fn, mt, bf⟩ =
        .error "options.filename must be provided for Base64 upload") ∧
    (truthyS fn = true → truthyS mt = false →
      prepareGraphQLBase64 data ⟨fn, mt, bf⟩ =
        .error "options.mimetype must be provided for Base64 upload") ∧
    (truthyS fn = true → truthyS mt = true → bf = true →
      prepareGraphQLBase64 data ⟨fn, mt, bf⟩ =
        .ok (.bufferUpload (base64DecodeStr data) (fn.getD "") (mt.getD ""))) ∧
    (truthyS fn = true → truthyS mt = true → bf = false →
      prepareGraphQLBase64 data ⟨fn, mt, bf⟩ =
        .ok (.base64Upload data (fn.getD "") (mt.getD ""))) := by
  refine ⟨fun h1 => ?_, fun h1 h2 => ?_, fun h1 h2 h3 => ?_, fun h1 h2 h3 => ?_⟩
  · simp [prepareGraphQLBase64, h1]
  · simp [prepareGraphQLBase64, h1, h2]
  · simp [prepareGraphQLBase64, prepareGraphQLBuffer, h1, h2, h3]
  · simp [prepareGraphQLBase64, h1, h2, h3]

/-- Witness for C7 at concrete options, one application per case. -/
theorem base64_upload_preparation_witness :
    prepareGraphQLBase64 "aw==" ⟨none, some "application/pdf", false⟩ =
      .error "options.filename must be provided for Base64 upload" ∧
    prepareGraphQLBase64 "aw==" ⟨some "f.pdf", none, false⟩ =
      .error "options.mimetype must be provided for Base64 upload" ∧
    prepareGraphQLBase64 "aw==" ⟨some "f.pdf", some "application/pdf", true⟩ =
      .ok (.bufferUpload [107] "f.pdf" "application/pdf") ∧
    prepareGraphQLBase64 "aw==" ⟨some "f.pdf", some "application/pdf", false⟩ =
      .ok (.base64Upload "aw==" "f.pdf" "application/pdf") :=
  ⟨(base64_upload_preparation "aw==" none (some "application/pdf") false).1 rfl,
   (base64_upload_preparation "aw==" (some "f.pdf") none false).2.1 rfl rfl,
   (base64_upload_preparation "aw==" (some "f.pdf") (some "application/pdf") true).2.2.1
     rfl rfl rfl,
   (base64_upload_preparation "aw==" (some "f.pdf") (some "application/pdf") false).2.2.2
     rfl rfl rfl⟩

/-- **C8** counterexample: the empty string is a `dataType` value outside
`{stream, buffer}`, yet `fillPDF` does not throw on it — the guard tests
JS truthiness before membership, so falsy values slip through. -/
theorem datatype_guard_counterexample :
    ("" ∉ supportedDataTypes) ∧
    fillPDF "cast123" (.jobj []) (.str "") = .ok
      { url := "/api/v1/fill/cast123.pdf", method := "POST",
        body := some "\x7b\x7d",
        headers := [("Content-Type", "application/json")], dataType := .str "" } :=
  ⟨by decide, rfl⟩

/-- **C8** (amended): for `fillPDF`, `generatePDF` and
`downloadDocuments`, every truthy (non-empty string) `dataType` outside
`{stream, buffer}` makes the call throw the descriptive error
synchronously, before any request descriptor is built; an omitted
`dataType` defaults to `buffer`.  (Falsy values — empty string, `null` —
bypass the guard.) -/
theorem datatype_validation (tid gid : String) (payload : JVal) (s : String)
    (hs : s ≠ "") (hns : s ∉ supportedDataTypes) :
    fillPDF tid payload (.str s) = .error "dataType must be one of: stream|buffer" ∧
    generatePDF payload (.str s) = .error "dataType must be one of: stream|buffer" ∧
    downloadDocuments gid (.str s) = .error "dataType must be one of: stream|buffer" ∧
    (fillPDF tid payload .undef).map (fun c => c.dataType) = .ok (.str "buffer") ∧
    (generatePDF payload .undef).map (fun c => c.dataType) = .ok (.str "buffer") ∧
    (downloadDocuments gid .undef).map (fun c => c.dataType) = .ok (.str "buffer") := by
  have hc : supportedDataTypes.contains s = false := by simpa using hns
  have hguard : dataTypeGuardFails (withDefault (.str s) "buffer") = true := by
    simp [withDefault, dataTypeGuardFails, truthyJS, strOf, hs, hc, hns]
  refine ⟨?_, ?_, ?_, rfl, rfl, rfl⟩
  · unfold fillPDF
    rw [if_pos (by rw [hguard])]
    rfl
  · unfold generatePDF
    rw [if_pos (by rw [hguard])]
    rfl
  · unfold downloadDocuments
    rw [if_pos (by rw [hguard])]
    rfl

/-- Witness for C8 (amended) at `dataType: "json"`. -/
theorem datatype_validation_witness :
    fillPDF "cast123" (.jobj []) (.str "json") =
      .error "dataType must be one of: stream|buffer" ∧
    generatePDF (.jobj []) (.str "json") =
      .error "dataType must be one of: stream|buffer" ∧
    downloadDocuments "docGroupEid123" (.str "json") =
      .error "dataType must be one of: stream|buffer" ∧
    (fillPDF "cast123" (.jobj []) .undef).map (fun c => c.dataType) = .ok (.str "buffer") ∧
    (generatePDF (.jobj []) .undef).map (fun c => c.dataType) = .ok (.str "buffer") ∧
    (downloadDocuments "docGroupEid123" .undef).map (fun c => c.dataType) =
      .ok (.str "buffer") :=
  datatype_validation "cast123" "docGroupEid123" (.jobj []) "json"
    (by decide) (by decide)

/-- `find?` commutes with a `filter` whose predicate is implied by the
search predicate. -/
theorem find?_filter_of_imp {α : Type} (p q : α → Bool)
    (h : ∀ x, p x = true → q x = true) :
    ∀ l : List α, (l.filter q).find? p = l.find? p
  | [] => rfl
  | x :: xs => by
    by_cases hq : q x = true
    · rw [List.filter_cons_of_pos hq]
      by_cases hp : p x = true
      · rw [List.find?_cons_of_pos _ hp, List.find?_cons_of_pos _ hp]
      · rw [List.find?_cons_of_neg _ hp, List.find?_cons_of_neg _ hp]
        exact find?_filter_of_imp p q h xs
    · have hp : ¬ p x = true := fun hpx => hq (h x hpx)
      rw [List.filter_cons_of_neg (by simpa using hq), List.find?_cons_of_neg _ hp]
      exact find?_filter_of_imp p q h xs

/-- `find?` on a key-preserving value rewrite of an association list. -/
theorem find?_key_map (k : String) (g : (String × String) → String) :
    ∀ a : List (String × String),
      List.find? (fun e => decide (e.1 = k)) (a.map (fun e => (e.1, g e))) =
        (List.find? (fun e => decide (e.1 = k)) a).map (fun e => (e.1, g e))
  | [] => rfl
  | x :: xs => by
    by_cases hx : x.1 = k
    · rw [List.map_cons, List.find?_cons_of_pos _ (by simpa using hx),
        List.find?_cons_of_pos _ (by simpa using hx)]
      rfl
    · rw [List.map_cons, List.find?_cons_of_neg _ (by simpa using hx),
        List.find?_cons_of_neg _ (by simpa using hx)]
      exact find?_key_map k g xs

/-- Lookup in a spread object resolves to the right-hand object's value
whenever the right-hand object binds the key: the spread-in defaults win
over whatever the left object had. -/
theorem lookupHdr_spread_right (a b : List (String × String)) (k w : String)
    (hb : lookupHdr b k = some w) : lookupHdr (spreadObj a b) k = some w := by
  have hgoal : lookupHdr (spreadObj a b) k =
      (List.find? (fun e => decide (e.1 = k))
        (a.map (fun e => (e.1, (lookupHdr b e.1).getD e.2)) ++
          b.filter (fun e => !hasHdr a e.1))).map (fun x => x.2) := rfl
  rw [hgoal, List.find?_append,
    find?_key_map k (fun e => (lookupHdr b e.1).getD e.2) a]
  cases hfa : a.find? (fun e => decide (e.1 = k)) with
  | some e0 =>
    have hp := List.find?_some hfa
    have he0 : e0.1 = k := by simpa using hp
    show some ((lookupHdr b e0.1).getD e0.2) = some w
    rw [he0, hb]
    rfl
  | none =>
    show Option.map (fun x => x.2)
      (List.find? (fun e => decide (e.1 = k)) (b.filter (fun e => !hasHdr a e.1))) = some w
    have hna : hasHdr a k = false := by
      rw [List.find?_eq_none] at hfa
      simp only [hasHdr, List.any_eq_false]
      intro e he
      simpa using hfa e he
    have hfilter : (b.filter (fun e => !hasHdr a e.1)).find? (fun e => decide (e.1 = k)) =
        b.find? (fun e => decide (e.1 = k)) := by
      refine find?_filter_of_imp _ _ (fun x hx => ?_) b
      have hxk : x.1 = k := of_decide_eq_true hx
      rw [hxk, hna]
      rfl
    rw [hfilter]
    exact hb

/-- **C9**: the constructor derives the single Authorization value —
`Bearer base64(accessToken)` when an access token is (truthily) present,
else `Basic base64(apiKey + ":")` — and `_addDefaultHeaders`, which
`_request` applies to every outbound request, attaches it together with
the configured User-Agent as defaults that override caller-specified
headers of the same name. -/
theorem auth_and_default_headers (apiKey accessToken : Option String) (auth : String)
    (hok : mkAuthHeader apiKey accessToken = .ok auth) :
    (truthyS accessToken = true → auth = "Bearer " ++ b64ascii (accessToken.getD "")) ∧
    (truthyS accessToken = false → auth = "Basic " ++ b64ascii ((apiKey.getD "") ++ ":")) ∧
    (∀ ua : String, ∀ opts : FetchOptions,
      lookupHdr (addDefaultHeaders ua auth opts).headers "Authorization" = some auth ∧
      lookupHdr (addDefaultHeaders ua auth opts).headers "User-Agent" = some ua) := by
  have hval : auth = if truthyS accessToken then "Bearer " ++ b64ascii (accessToken.getD "")
      else "Basic " ++ b64ascii ((apiKey.getD "") ++ ":") := by
    unfold mkAuthHeader at hok
    split at hok
    · cases hok
      rfl
    · exact absurd hok (by simp)
  refine ⟨fun ht => by rw [hval, if_pos ht], fun hf => by rw [hval]; simp [hf], ?_⟩
  intro ua opts
  constructor
  · exact lookupHdr_spread_right opts.headers
      [("User-Agent", ua), ("Authorization", auth)] "Authorization" auth rfl
  · exact lookupHdr_spread_right opts.headers
      [("User-Agent", ua), ("Authorization", auth)] "User-Agent" ua rfl

/-- Witness for C9: bearer credential, with a caller attempting to
override both default headers. -/
theorem auth_and_default_headers_witness :
    ("Bearer ZGVmMzQ1" : String) = "Bearer " ++ b64ascii ((some "def345").getD "") ∧
    lookupHdr (addDefaultHeaders "Anvil API Client/1.0.0" "Bearer ZGVmMzQ1"
        ⟨"POST", [("Authorization", "evil"), ("User-Agent", "spoof")]⟩).headers
      "Authorization" = some "Bearer ZGVmMzQ1" ∧
    lookupHdr (addDefaultHeaders "Anvil API Client/1.0.0" "Bearer ZGVmMzQ1"
        ⟨"POST", [("Authorization", "evil"), ("User-Agent", "spoof")]⟩).headers
      "User-Agent" = some "Anvil API Client/1.0.0" := by
  have h := auth_and_default_headers none (some "def345") "Bearer ZGVmMzQ1" rfl
  exact ⟨h.1 rfl,
    (h.2.2 "Anvil API Client/1.0.0"
      ⟨"POST", [("Authorization", "evil"), ("User-Agent", "spoof")]⟩).1,
    (h.2.2 "Anvil API Client/1.0.0"
      ⟨"POST", [("Authorization", "evil"), ("User-Agent", "spoof")]⟩).2⟩

/-- **C10**: when both an apiKey and a (truthy) accessToken are supplied,
the Bearer form built from the accessToken wins and the apiKey is
ignored — the derived header equals the one a client with no apiKey at
all would get. -/
theorem access_token_precedence (k t : String) (ht : t ≠ "") :
    mkAuthHeader (some k) (some t) = .ok ("Bearer " ++ b64ascii t) ∧
    mkAuthHeader (some k) (some t) = mkAuthHeader none (some t) := by
  have htr : truthyS (some t) = true := by simp [truthyS, ht]
  constructor
  · unfold mkAuthHeader
    rw [htr]
    simp
  · unfold mkAuthHeader
    rw [htr]
    simp [truthyS]

/-- Witness for C10 at concrete credentials. -/
theorem access_token_precedence_witness :
    mkAuthHeader (some "abc123") (some "def345") = .ok ("Bearer " ++ b64ascii "def345") ∧
    mkAuthHeader (some "abc123") (some "def345") = mkAuthHeader none (some "def345") :=
  access_token_precedence "abc123" "def345" (by decide)

end Anvil
